import Mathlib

/-!
Verification development for the mandala-chat frontend (`script.js`).

The file shallowly embeds the two core subsystems of the source:

* the particle field (`initParticles`, `resizeCanvas`) over exact rationals —
  angles that the source stores in radians (always produced as `2π · t`) are
  stored here as the rational fraction `t` of a full turn, and converted to
  real radians (`2 * Real.pi * t`) in the theorem statements;
* the connectivity layer (`healthUrlForBackend`, `tryAutoUpgradeIfNeeded`,
  `sendToBackend`) over strings, with the browser's `URL` class modelled by an
  explicit parser/serializer for `scheme://host[:port][/path][?query][#frag]`
  and thrown exceptions modelled by `Except`.
-/

namespace MandalaChat

/-- `lerp` from the source: `a + (b - a) * t`. -/
def lerp (a b t : ℚ) : ℚ := a + (b - a) * t

/-- `easeInOut` from the source: `t < 0.5 ? 2*t*t : -1 + (4 - 2*t)*t`. -/
def easeInOut (t : ℚ) : ℚ := if t < 1/2 then 2 * t * t else -1 + (4 - 2 * t) * t

/-- A particle, as built by `initParticles`.  All numeric fields are exact
rationals; the angular fields (`scatterAngle`, `phase`, `mandalaAngleTurns`)
are stored as fractions of a full turn (the source multiplies these fractions
by `2π` to obtain radians). -/
structure Particle where
  x : ℚ
  y : ℚ
  scatterAngle : ℚ
  scatterRadius : ℚ
  phase : ℚ
  speed : ℚ
  mandalaRadius : ℚ
  mandalaAngleTurns : ℚ
  baseSize : ℚ
deriving DecidableEq

/-- The particle built for ring `r` (1-based) and in-ring index `i` by the
loop body of `initParticles`.  The stream `rng : ℕ → ℚ` abstracts the
successive `Math.random()` draws (six per particle, in source order:
scatter angle, scatter radius shape, phase, speed, x jitter, y jitter; the
`Math.sqrt` shaping of the scatter-radius draw is absorbed into the stream,
which ranges over arbitrary values in `[0,1)` either way). -/
def mkParticle (cx cy bigR : ℚ) (ringCount perRing : ℕ) (rng : ℕ → ℚ)
    (r i : ℕ) : Particle :=
  let k := 6 * ((r - 1) * perRing + i)
  { x := cx + rng (k + 4) * 10 - 5
    y := cy + rng (k + 5) * 10 - 5
    scatterAngle := rng k
    scatterRadius := rng (k + 1) * bigR
    phase := rng (k + 2)
    speed := 1/1000 + rng (k + 3) * (2/1000)
    mandalaRadius := (bigR * (2/5)) * (r : ℚ) / (ringCount : ℚ)
    mandalaAngleTurns := (i : ℚ) / (perRing : ℚ)
    baseSize := 3/2 }

/-- `initParticles` from the source: `particlesPerRing = floor(count/rings) || 1`,
then one particle per `(ring, index)` pair, rings numbered `1..rings`. -/
def initParticles (cx cy bigR : ℚ) (count ringCount : ℕ) (rng : ℕ → ℚ) :
    List Particle :=
  let perRing := max (count / ringCount) 1
  (List.range' 1 ringCount).flatMap fun r =>
    (List.range perRing).map fun i => mkParticle cx cy bigR ringCount perRing rng r i

/-- The geometry `resizeCanvas` derives from the window size `(w, h)`:
`cx = w/2`, `cy = h/4`, `bigRadius = min(cx, cy) * 0.80`. -/
def canvasGeom (w h : ℚ) : ℚ × ℚ × ℚ :=
  (w / 2, h / 4, min (w / 2) (h / 4) * (4/5))

/-- The per-particle remap performed by `resizeCanvas` when particles already
exist: `scaleX = cx/oldCx`, `scaleY = cy/oldCy`, `scaleR = bigRadius/oldBigRadius`,
then `x = cx + (x - oldCx) * scaleX`, `y = cy + (y - oldCy) * scaleY`, and the
two stored radii are multiplied by `scaleR`. -/
def resizeParticle (oldCx oldCy oldR cx cy newR : ℚ) (p : Particle) : Particle :=
  { p with
    x := cx + (p.x - oldCx) * (cx / oldCx)
    y := cy + (p.y - oldCy) * (cy / oldCy)
    scatterRadius := p.scatterRadius * (newR / oldR)
    mandalaRadius := p.mandalaRadius * (newR / oldR) }

/-- Squared distance of a particle from a center point. -/
def distSq (p : Particle) (cx cy : ℚ) : ℚ :=
  (p.x - cx) ^ 2 + (p.y - cy) ^ 2

/-! ### Thinking state machine -/

/-- `MIN_THINK_MS` from the source. -/
def MIN_THINK_MS : ℚ := 1200

/-- The delay `stopThinking` passes to `setTimeout`:
`remain = Math.max(0, MIN_THINK_MS - (now - thinkingStartedAt))`. -/
def stopThinkingDelay (startedAt now : ℚ) : ℚ :=
  max 0 (MIN_THINK_MS - (now - startedAt))

/-- The instant at which the deferred `aiThinking = false` assignment fires:
the moment `stopThinking` runs plus the computed delay. -/
def idleTimestamp (startedAt stopAt : ℚ) : ℚ :=
  stopAt + stopThinkingDelay startedAt stopAt

/-! ### URL model

The browser's `URL` class, restricted to the shapes this program feeds it:
`scheme://host[:port][/path][?query][#fragment]`.  Construction failure
(`new URL(...)` throwing) is modelled by `Option`.  All character-level work
is done on `String.data` lists so every definition evaluates by kernel
reduction. -/

/-- Parsed components of a URL. -/
structure ParsedUrl where
  scheme : String
  host : String
  port : String
  pathname : String
  search : String
  hash : String
deriving DecidableEq

/-- Split a character list at the first occurrence of `"://"`; returns the
(reversed-back) part before it and the part after it. -/
def splitSchemeAux : List Char → List Char → Option (List Char × List Char)
  | acc, ':' :: '/' :: '/' :: rest => some (acc.reverse, rest)
  | acc, c :: rest => splitSchemeAux (c :: acc) rest
  | _, [] => none

/-- A scheme is accepted when nonempty and alphabetic (covers `http`/`https`). -/
def schemeOkB (sch : List Char) : Bool :=
  !sch.isEmpty && sch.all (fun c => c.isAlpha)

/-- Split an authority into host and port at the last colon; an absent or
empty host, or a non-numeric port, is a construction failure. -/
def splitHostPort (auth : List Char) : Option (String × String) :=
  if auth.contains ':' then
    let port := (auth.reverse.takeWhile (fun c => c != ':')).reverse
    let host := auth.take (auth.length - port.length - 1)
    if host.isEmpty then none
    else if port.all (fun c => c.isDigit) then some (String.mk host, String.mk port)
    else none
  else if auth.isEmpty then none else some (String.mk auth, "")

/-- `new URL(s)`: `none` models the constructor throwing. -/
def parseUrl (s : String) : Option ParsedUrl :=
  match splitSchemeAux [] s.data with
  | none => none
  | some (sch, rest) =>
    if schemeOkB sch then
      let auth := rest.takeWhile (fun c => c != '/' && c != '?' && c != '#')
      let tail := rest.drop auth.length
      match splitHostPort auth with
      | none => none
      | some (host, port) =>
        let beforeHash := tail.takeWhile (fun c => c != '#')
        let hashPart := tail.drop beforeHash.length
        let pathPart := beforeHash.takeWhile (fun c => c != '?')
        let searchPart := beforeHash.drop pathPart.length
        some { scheme := String.mk sch
               host := host
               port := port
               pathname := if pathPart.isEmpty then "/" else String.mk pathPart
               search := if searchPart = ['?'] then "" else String.mk searchPart
               hash := if hashPart = ['#'] then "" else String.mk hashPart }
    else none

/-- `u.origin`: `scheme://host[:port]`. -/
def urlOrigin (u : ParsedUrl) : String :=
  u.scheme ++ "://" ++ u.host ++ (if u.port = "" then "" else ":" ++ u.port)

/-- `u.toString()`. -/
def serializeUrl (u : ParsedUrl) : String :=
  urlOrigin u ++ u.pathname ++ u.search ++ u.hash

/-- `s.startsWith(pre)`, computed on character lists. -/
def jsStartsWith (s pre : String) : Bool :=
  pre.data.isPrefixOf s.data

/-- `backendOriginFrom(url)` from the source: `new URL(url).origin`, falling
back to `window.location.origin` (the page origin) when parsing throws. -/
def backendOriginFrom (pageOrigin url : String) : String :=
  match parseUrl url with
  | some u => urlOrigin u
  | none => pageOrigin

/-- `healthUrlForBackend(url)` from the source: parse, set `pathname` to
`/health`, clear `search` and `hash`, and serialize; on parse failure fall
back to `backendOriginFrom(url) + '/health'`. -/
def healthUrlForBackend (pageOrigin url : String) : String :=
  match parseUrl url with
  | some u => serializeUrl { u with pathname := "/health", search := "", hash := "" }
  | none => backendOriginFrom pageOrigin url ++ "/health"

/-- Directory part of a path: everything up to and including the last slash. -/
def dirOfPath (path : List Char) : List Char :=
  (path.reverse.dropWhile (fun c => c != '/')).reverse

/-- `new URL(rel, base).toString()`: an absolute `rel` wins; otherwise `rel`
is resolved against `base` (scheme-relative, root-relative, or
path-relative); `none` models the constructor throwing (unusable base). -/
def resolveUrl (rel base : String) : Option String :=
  match parseUrl rel with
  | some u => some (serializeUrl u)
  | none =>
    match parseUrl base with
    | none => none
    | some b =>
      if jsStartsWith rel "//" then some (b.scheme ++ ":" ++ rel)
      else if jsStartsWith rel "/" then some (urlOrigin b ++ rel)
      else some (urlOrigin b ++ String.mk (dirOfPath b.pathname.data) ++ rel)

/-- The `try { new URL(rel, base) } catch { rel }` pattern used for
`resume_url` resolution. -/
def resolveResume (rel base : String) : String :=
  (resolveUrl rel base).getD rel

/-! ### Chat transport -/

/-- The response JSON fields the transport reads; `none` models an absent
field and `some ""` an empty string, which JS truthiness treats alike. -/
structure ChatData where
  reply : Option String
  text : Option String
  resume_url : Option String
deriving DecidableEq

/-- The record `sendToBackend` resolves with. -/
structure ChatResult where
  reply : String
  resume_url : Option String
deriving DecidableEq

/-- Outcome of one `fetch` POST attempt, as observed by `postTo`. -/
inductive FetchOutcome where
  | ok (data : ChatData)
  | okBadJson (message : String)
  | httpError (status : Nat) (text : String) (errorField : Option String)
  | networkError (message : String)
deriving DecidableEq

/-- A thrown JS error, carrying the `message` the handlers inspect. -/
inductive JsError where
  | serverError (message : String) (status : Nat) (body : String)
  | jsonError (message : String)
  | fetchError (message : String)
deriving DecidableEq

/-- `err.message`. -/
def errMessage : JsError → String
  | .serverError m _ _ => m
  | .jsonError m => m
  | .fetchError m => m

/-- The error detail chosen by `postTo` on a non-ok response:
`body && body.error ? body.error : (text || 'status N')`, where an empty
`error` field is falsy. -/
def httpErrMsg (status : Nat) (text : String) (errorField : Option String) : String :=
  let fallback := if text = "" then "status " ++ toString status else text
  match errorField with
  | some e => if e = "" then fallback else e
  | none => fallback

/-- The inner `postTo` of `sendToBackend`: a non-ok status throws
`Server error: ...`, a rejected `fetch` or unparsable success body also
throws; otherwise the parsed JSON is returned. -/
def postTo (outcome : FetchOutcome) : Except JsError ChatData :=
  match outcome with
  | .ok data => .ok data
  | .okBadJson m => .error (.jsonError m)
  | .httpError status text errorField =>
      .error (.serverError ("Server error: " ++ httpErrMsg status text errorField) status text)
  | .networkError m => .error (.fetchError m)

/-- JS `a || b` on an optional string field: `none` and `""` are falsy. -/
def jsOr (a : Option String) (b : String) : String :=
  match a with
  | some s => if s = "" then b else s
  | none => b

/-- Response normalization from `sendToBackend`:
`data.reply || data.text || "Ultron: (no response)"`, and `resume_url`
(when truthy) resolved against the backend origin. -/
def normalizeData (d : ChatData) (origin : String) : ChatResult :=
  { reply := jsOr d.reply (jsOr d.text "Ultron: (no response)")
    resume_url :=
      match d.resume_url with
      | none => none
      | some ru => if ru = "" then none else some (resolveResume ru origin) }

/-- `escapeHtml` from the source. -/
def escapeHtml (s : String) : String :=
  if s = "" then ""
  else String.join (s.data.map fun c =>
    if c = '&' then "&amp;"
    else if c = '<' then "&lt;"
    else if c = '>' then "&gt;"
    else if c = '"' then "&quot;"
    else if c = '\'' then "&#39;"
    else String.mk [c])

/-- `s.toLowerCase()`. -/
def jsToLower (s : String) : String :=
  String.mk (s.data.map Char.toLower)

/-- `hay.includes(needle)`. -/
def strIncludes (hay needle : String) : Bool :=
  decide (needle.data <:+: hay.data)

/-! ### Connectivity state and its writers -/

/-- Built-in default backend URL (`DEFAULT_BACKEND_URL`). -/
def DEFAULT_BACKEND_URL : String := "http://127.0.0.1:5001/api/chat"

/-- Built-in default API key (`DEFAULT_API_KEY`). -/
def DEFAULT_API_KEY : String := "ULTRON_CLIENT_KEY_ABC"

/-- The process-wide mutable connectivity configuration: the globals
`BACKEND_URL`, `BACKEND_ORIGIN`, `API_KEY`, together with the two
`localStorage` slots the writers touch. -/
structure ConnState where
  backendUrl : String
  backendOrigin : String
  apiKey : String
  storedBackend : Option String
  storedKey : Option String
deriving DecidableEq

/-- The three-assignment commit used by the upgrade paths:
`BACKEND_URL = url; BACKEND_ORIGIN = backendOriginFrom(url);
localStorage.setItem('ULTRON_BACKEND', url)`. -/
def setBackend (pageOrigin url : String) (st : ConnState) : ConnState :=
  { st with
    backendUrl := url
    backendOrigin := backendOriginFrom pageOrigin url
    storedBackend := some url }

/-- The https candidate `BACKEND_URL.replace(/^http:\/\//i, 'https://')`,
under the guard that the URL starts with `http://`. -/
def httpsCandidate (url : String) : String :=
  String.mk ("https://".data ++ url.data.drop 7)

/-- `tryAutoUpgradeIfNeeded`: when the page is secure and the backend URL is
insecure, probe the https candidate (`probeOk` is the probe's verdict) and
commit it only on success; returns the source's boolean result alongside the
new state.  Banner output is not modelled. -/
def tryAutoUpgradeIfNeeded (pageSecure : Bool) (pageOrigin : String)
    (probeOk : Bool) (st : ConnState) : ConnState × Bool :=
  if pageSecure && jsStartsWith st.backendUrl "http://" then
    if probeOk then (setBackend pageOrigin (httpsCandidate st.backendUrl) st, true)
    else (st, false)
  else (st, true)

/-- Fixed first sentence of both fallback replies. -/
def unreachBase : String := "Ultron: Unable to reach backend."

/-- The mixed-content note appended after the failed https retry. -/
def mixedBlockNote : String :=
  " (Blocked by browser: this page is HTTPS but backend is HTTP — mixed-content.)"

/-- Fragment of the mixed-content tip before the health URL. -/
def mixedTipA : String :=
  " Tip: set backend to an <code>https://</code> URL (e.g. <code>https://192.168.0.105:5001/api/chat</code>) and accept the certificate at <a href=\""

/-- Fragment of the mixed-content tip after the health URL. -/
def mixedTipB : String :=
  "\" target=\"_blank\" rel=\"noopener noreferrer\">/health</a>."

/-- The reply built in the `catch (err2)` branch of `sendToBackend`: the
mixed-content advice (embedding the concrete health URL) when the page is
secure and the backend insecure, else a console pointer. -/
def retryFailHelp (pageSecure : Bool) (pageOrigin url : String) : String :=
  if pageSecure && jsStartsWith url "http://" then
    unreachBase ++ mixedBlockNote ++ mixedTipA ++ healthUrlForBackend pageOrigin url ++ mixedTipB
  else
    unreachBase ++ " (See console for details.)"

/-- The reply built by the generic fallback of `sendToBackend`: echo a
server-reported error, else a remediation hint. -/
def genericHelp (e : JsError) : String :=
  if strIncludes (jsToLower (errMessage e)) "server error" then
    unreachBase ++ " (" ++ escapeHtml (errMessage e) ++ ")"
  else
    unreachBase ++ " (Check server, URL & API key)."

/-- `sendToBackend(msg)`.  `primary` is the outcome of the POST to the
current `BACKEND_URL`; `retry` the outcome of the POST to the https
candidate, consulted only when that retry is attempted.  A `.error` result
would model an exception escaping `sendToBackend`'s own handlers. -/
def sendToBackend (pageSecure : Bool) (pageOrigin : String) (st : ConnState)
    (primary retry : FetchOutcome) : Except JsError (ChatResult × ConnState) :=
  match postTo primary with
  | .ok data => .ok (normalizeData data st.backendOrigin, st)
  | .error err =>
    if pageSecure && jsStartsWith st.backendUrl "http://" then
      match postTo retry with
      | .ok data =>
          let st' := setBackend pageOrigin (httpsCandidate st.backendUrl) st
          .ok (normalizeData data st'.backendOrigin, st')
      | .error _ =>
          .ok ({ reply := retryFailHelp pageSecure pageOrigin st.backendUrl
                 resume_url := none }, st)
    else
      .ok ({ reply := genericHelp err, resume_url := none }, st)

/-- `s.trim()`. -/
def jsTrim (s : String) : String :=
  String.mk (((s.data.dropWhile fun c => c.isWhitespace).reverse.dropWhile
    fun c => c.isWhitespace).reverse)

/-- The four operations that write the connectivity configuration. -/
inductive ConnOp where
  | autoUpgrade (pageSecure probeOk : Bool)
  | chatSend (pageSecure : Bool) (primary retry : FetchOutcome)
  | save (backendField keyField : String)
  | reset
deriving DecidableEq

/-- One step of the connectivity state: the auto-upgrade pass, a whole
`sendToBackend` call (whose only state write is the in-flight https retry
commit), the settings Save handler, or the settings Reset handler. -/
def applyOp (pageOrigin : String) (op : ConnOp) (st : ConnState) : ConnState :=
  match op with
  | .autoUpgrade sec probeOk => (tryAutoUpgradeIfNeeded sec pageOrigin probeOk st).1
  | .chatSend sec primary retry =>
      match sendToBackend sec pageOrigin st primary retry with
      | .ok (_, st') => st'
      | .error _ => st
  | .save backendField keyField =>
      let nb := jsTrim backendField
      let nk := jsTrim keyField
      let st1 :=
        if nb ≠ "" then
          { st with storedBackend := some nb, backendUrl := nb
                    backendOrigin := backendOriginFrom pageOrigin nb }
        else
          { st with storedBackend := none, backendUrl := DEFAULT_BACKEND_URL
                    backendOrigin := backendOriginFrom pageOrigin DEFAULT_BACKEND_URL }
      if nk ≠ "" then { st1 with storedKey := some nk, apiKey := nk }
      else { st1 with storedKey := none, apiKey := DEFAULT_API_KEY }
  | .reset =>
      { st with storedBackend := none, storedKey := none
                backendUrl := DEFAULT_BACKEND_URL, apiKey := DEFAULT_API_KEY
                backendOrigin := backendOriginFrom pageOrigin DEFAULT_BACKEND_URL }

/-- The configuration invariant: the cached origin is the one derived from
the current backend URL. -/
def OriginConsistent (pageOrigin : String) (st : ConnState) : Prop :=
  st.backendOrigin = backendOriginFrom pageOrigin st.backendUrl

instance (pageOrigin : String) (st : ConnState) :
    Decidable (OriginConsistent pageOrigin st) := by
  unfold OriginConsistent; infer_instance

/-! ## Theorems -/

/-- C4: for a single non-overlapping request, start at `startedAt` and stop
requested at `stopAt ≥ startedAt`; the deferred `aiThinking = false`
assignment fires at `stopAt + max(0, 1200 - elapsed)`, so the idle timestamp
is at least `MIN_THINK_MS` after the thinking timestamp. -/
theorem thinking_min_duration (startedAt stopAt : ℚ) (_h : startedAt ≤ stopAt) :
    MIN_THINK_MS ≤ idleTimestamp startedAt stopAt - startedAt := by
  have hmax := le_max_right (0 : ℚ) (MIN_THINK_MS - (stopAt - startedAt))
  unfold idleTimestamp stopThinkingDelay
  linarith

/-- Witness for `thinking_min_duration` at a request that stops after 300 ms. -/
theorem thinking_min_duration_witness :
    (0 : ℚ) ≤ 300 ∧ MIN_THINK_MS ≤ idleTimestamp 0 300 - 0 :=
  ⟨by norm_num, thinking_min_duration 0 300 (by norm_num)⟩

/-- C1 is false as stated: resizing the window from 200×200 to 400×200 keeps
the outer radius at 40 (ratio 1), yet the particle at (110, 50) — at distance
10 from the old center (100, 50) — is moved to distance 20 from the new
center (200, 50), because `resizeCanvas` scales x by `cx/oldCx = 2` and y by
`cy/oldCy = 1` independently of the radius ratio. -/
theorem rescale_similarity_counterexample :
    canvasGeom 200 200 = (100, 50, 40)
    ∧ canvasGeom 400 200 = (200, 50, 40)
    ∧ distSq (resizeParticle 100 50 40 200 50 40 ⟨110, 50, 0, 0, 0, 0, 0, 0, 3/2⟩) 200 50 * 40 ^ 2
      ≠ distSq (⟨110, 50, 0, 0, 0, 0, 0, 0, 3/2⟩ : Particle) 100 50 * 40 ^ 2 := by
  refine ⟨by norm_num [canvasGeom, min_def], by norm_num [canvasGeom, min_def],
    by norm_num [distSq, resizeParticle]⟩

/-- C1 (amended): `resizeCanvas` is a similarity transform whenever the
horizontal and vertical center scale factors agree (`(w/2)/oldCx =
(h/4)/oldCy`, e.g. a uniform window resize); then the squared distance from
the center scales by exactly the squared ratio of new to old outer radius.
For non-uniform resizes the x and y offsets scale by different factors and
the property fails (see the counterexample). -/
theorem rescale_similarity_of_uniform_scale
    (oldCx oldCy oldR w h : ℚ) (p : Particle)
    (hcx : 0 < oldCx) (hcy : 0 < oldCy) (hw : 0 < w)
    (hR : oldR = min oldCx oldCy * (4/5))
    (huniform : w / 2 * oldCy = h / 4 * oldCx) :
    distSq (resizeParticle oldCx oldCy oldR (canvasGeom w h).1 (canvasGeom w h).2.1
        (canvasGeom w h).2.2 p) (canvasGeom w h).1 (canvasGeom w h).2.1 * oldR ^ 2
      = distSq p oldCx oldCy * (canvasGeom w h).2.2 ^ 2 := by
  have hcx0 : oldCx ≠ 0 := ne_of_gt hcx
  have hcy0 : oldCy ≠ 0 := ne_of_gt hcy
  set s : ℚ := w / 2 / oldCx with hs_def
  have hs : 0 < s := div_pos (by linarith) hcx
  have hx : w / 2 = s * oldCx := by
    rw [hs_def]; field_simp; ring
  have hy : h / 4 = s * oldCy := by
    have h1 : s * oldCy = w / 2 * oldCy / oldCx := by rw [hs_def]; ring
    rw [h1, huniform]; field_simp; ring
  have hxs : w / 2 / oldCx = s := hs_def.symm
  have hys : h / 4 / oldCy = s := by rw [hy]; field_simp
  have hmin : min (w / 2) (h / 4) = s * min oldCx oldCy := by
    rw [hx, hy]; exact (mul_min_of_nonneg _ _ hs.le).symm
  simp only [canvasGeom, distSq, resizeParticle]
  rw [hxs, hys, hmin, hR]
  ring

/-- Witness for `rescale_similarity_of_uniform_scale`: a uniform resize of a
200×200 window to 400×400 with a particle at (110, 60). -/
theorem rescale_similarity_of_uniform_scale_witness :
    (0 : ℚ) < 100 ∧ (0 : ℚ) < 50 ∧ (0 : ℚ) < 400
    ∧ (40 : ℚ) = min 100 50 * (4/5)
    ∧ (400 : ℚ) / 2 * 50 = 400 / 4 * 100
    ∧ distSq (resizeParticle 100 50 40 (canvasGeom 400 400).1 (canvasGeom 400 400).2.1
          (canvasGeom 400 400).2.2 ⟨110, 60, 0, 0, 0, 0, 0, 0, 3/2⟩)
        (canvasGeom 400 400).1 (canvasGeom 400 400).2.1 * 40 ^ 2
      = distSq (⟨110, 60, 0, 0, 0, 0, 0, 0, 3/2⟩ : Particle) 100 50 * (canvasGeom 400 400).2.2 ^ 2 :=
  ⟨by norm_num, by norm_num, by norm_num, by norm_num [min_def], by norm_num,
    rescale_similarity_of_uniform_scale 100 50 40 400 400 _
      (by norm_num) (by norm_num) (by norm_num) (by norm_num [min_def]) (by norm_num)⟩

/-- C5: on a secure page with an insecure backend URL, the auto-upgrade pass
commits the https candidate (URL, derived origin and the persisted
`ULTRON_BACKEND` slot together) exactly when the probe of the candidate
succeeds; on probe failure the whole state is left unchanged. -/
theorem autoUpgrade_commit_iff_probe (pageOrigin : String) (st : ConnState) (probeOk : Bool)
    (hhttp : jsStartsWith st.backendUrl "http://" = true) :
    (probeOk = true →
      tryAutoUpgradeIfNeeded true pageOrigin probeOk st
        = ({ st with
              backendUrl := httpsCandidate st.backendUrl
              backendOrigin := backendOriginFrom pageOrigin (httpsCandidate st.backendUrl)
              storedBackend := some (httpsCandidate st.backendUrl) }, true))
    ∧ (probeOk = false → tryAutoUpgradeIfNeeded true pageOrigin probeOk st = (st, false)) := by
  constructor <;> rintro rfl <;> simp [tryAutoUpgradeIfNeeded, setBackend, hhttp]

/-- Witness for `autoUpgrade_commit_iff_probe` on a concrete insecure state
with a successful probe. -/
theorem autoUpgrade_commit_iff_probe_witness :
    jsStartsWith (ConnState.backendUrl ⟨"http://h:1/a", "http://h:1", "k", none, none⟩) "http://" = true
    ∧ ((true : Bool) = true →
      tryAutoUpgradeIfNeeded true "https://p" true ⟨"http://h:1/a", "http://h:1", "k", none, none⟩
        = ({ backendUrl := httpsCandidate "http://h:1/a"
             backendOrigin := backendOriginFrom "https://p" (httpsCandidate "http://h:1/a")
             apiKey := "k"
             storedBackend := some (httpsCandidate "http://h:1/a")
             storedKey := none }, true))
    ∧ ((true : Bool) = false →
      tryAutoUpgradeIfNeeded true "https://p" true ⟨"http://h:1/a", "http://h:1", "k", none, none⟩
        = (⟨"http://h:1/a", "http://h:1", "k", none, none⟩, false)) :=
  ⟨by decide,
    (autoUpgrade_commit_iff_probe "https://p" ⟨"http://h:1/a", "http://h:1", "k", none, none⟩
      true (by decide)).1,
    (autoUpgrade_commit_iff_probe "https://p" ⟨"http://h:1/a", "http://h:1", "k", none, none⟩
      true (by decide)).2⟩

/-- C3: whatever the outcomes of the underlying HTTP attempts — success,
non-ok status with or without a structured error body, unparsable success
body, or transport failure — and whatever the page/backend protocols,
`sendToBackend` resolves with a result record (carrying a reply string);
no exception escapes its own handlers. -/
theorem sendToBackend_total (pageSecure : Bool) (pageOrigin : String) (st : ConnState)
    (primary retry : FetchOutcome) :
    ∃ r : ChatResult × ConnState,
      sendToBackend pageSecure pageOrigin st primary retry = .ok r := by
  unfold sendToBackend
  cases postTo primary with
  | ok d => exact ⟨_, rfl⟩
  | error e =>
    dsimp only
    split
    · cases postTo retry with
      | ok d => exact ⟨_, rfl⟩
      | error e2 => exact ⟨_, rfl⟩
    · exact ⟨_, rfl⟩

/-- C2 is false as stated: a transport-level failure on an insecure page
(so the mixed-content retry is not taken) yields the generic reply
`Ultron: Unable to reach backend. (Check server, URL & API key).`, which
does not contain the health-check URL `http://h:1/health`. -/
theorem send_failure_health_counterexample :
    sendToBackend false "https://page.example" ⟨"http://h:1/a", "http://h:1", "k", none, none⟩
        (.networkError "Failed to fetch") (.networkError "x")
      = .ok ({ reply := "Ultron: Unable to reach backend. (Check server, URL & API key)."
               resume_url := none },
             ⟨"http://h:1/a", "http://h:1", "k", none, none⟩)
    ∧ ¬ ((healthUrlForBackend "https://page.example" "http://h:1/a").data <:+:
        ("Ultron: Unable to reach backend. (Check server, URL & API key).").data) :=
  ⟨rfl, by decide⟩

/-- C2 (amended): the reply embeds the concrete health-check URL in the
mixed-content failure path — page secure, backend URL insecure, and both the
primary POST and the https retry failing; in all other failure paths the
reply is a generic message without the URL (see the counterexample). -/
theorem send_mixed_content_reply_contains_health
    (pageOrigin : String) (st : ConnState) (primary retry : FetchOutcome)
    (e1 e2 : JsError)
    (h1 : postTo primary = .error e1) (h2 : postTo retry = .error e2)
    (hhttp : jsStartsWith st.backendUrl "http://" = true) :
    sendToBackend true pageOrigin st primary retry
      = .ok ({ reply := (unreachBase ++ mixedBlockNote ++ mixedTipA)
                  ++ healthUrlForBackend pageOrigin st.backendUrl ++ mixedTipB
               resume_url := none }, st)
    ∧ ∃ pre post : String,
        (unreachBase ++ mixedBlockNote ++ mixedTipA)
            ++ healthUrlForBackend pageOrigin st.backendUrl ++ mixedTipB
          = pre ++ healthUrlForBackend pageOrigin st.backendUrl ++ post := by
  constructor
  · unfold sendToBackend
    rw [h1]
    simp only [Bool.true_and, hhttp, if_true]
    rw [h2]
    simp [retryFailHelp, hhttp]
  · exact ⟨unreachBase ++ mixedBlockNote ++ mixedTipA, mixedTipB, rfl⟩

/-- Witness for `send_mixed_content_reply_contains_health`: a secure page,
an insecure backend, a rejected primary POST and a 500-status retry. -/
theorem send_mixed_content_reply_contains_health_witness :
    postTo (.networkError "Failed to fetch") = .error (.fetchError "Failed to fetch")
    ∧ postTo (.httpError 500 "" none) = .error (.serverError ("Server error: " ++ httpErrMsg 500 "" none) 500 "")
    ∧ jsStartsWith (ConnState.backendUrl ⟨"http://h:1/a", "http://h:1", "k", none, none⟩) "http://" = true
    ∧ (sendToBackend true "https://p" ⟨"http://h:1/a", "http://h:1", "k", none, none⟩
          (.networkError "Failed to fetch") (.httpError 500 "" none)
        = .ok ({ reply := (unreachBase ++ mixedBlockNote ++ mixedTipA)
                    ++ healthUrlForBackend "https://p" (ConnState.backendUrl ⟨"http://h:1/a", "http://h:1", "k", none, none⟩) ++ mixedTipB
                 resume_url := none }, ⟨"http://h:1/a", "http://h:1", "k", none, none⟩)
        ∧ ∃ pre post : String,
            (unreachBase ++ mixedBlockNote ++ mixedTipA)
                ++ healthUrlForBackend "https://p" (ConnState.backendUrl ⟨"http://h:1/a", "http://h:1", "k", none, none⟩) ++ mixedTipB
              = pre ++ healthUrlForBackend "https://p" (ConnState.backendUrl ⟨"http://h:1/a", "http://h:1", "k", none, none⟩) ++ post) :=
  ⟨rfl, rfl, by decide,
    send_mixed_content_reply_contains_health "https://p"
      ⟨"http://h:1/a", "http://h:1", "k", none, none⟩
      (.networkError "Failed to fetch") (.httpError 500 "" none)
      (.fetchError "Failed to fetch")
      (.serverError ("Server error: " ++ httpErrMsg 500 "" none) 500 "")
      rfl rfl (by decide)⟩

/-- C6 is false as stated: in `{reply: "", text: "hi"}` both fields are
present, yet normalization yields `"hi"` (the `text` field), not the
present-but-empty `reply` field, because JS `||` treats `""` as falsy. -/
theorem normalize_empty_reply_counterexample :
    normalizeData ⟨some "", some "hi", none⟩ "https://h" = ⟨"hi", none⟩
    ∧ ("hi" : String) ≠ "" :=
  ⟨rfl, by decide⟩

/-- C6 (amended): normalization picks `reply` over `text` when both are
present and `reply` is nonempty (an empty `reply` falls back like a missing
one); yields the fixed placeholder when both are missing; resolves a truthy
`resume_url` against the backend origin passed in (not the page origin) —
in particular `{text: "hi", resume_url: "/files/r.pdf"}` against origin
`https://host` normalizes to `⟨"hi", "https://host/files/r.pdf"⟩`. -/
theorem normalize_reply_spec (d : ChatData) (origin : String) :
    (∀ r t, d.reply = some r → r ≠ "" → d.text = some t →
      (normalizeData d origin).reply = r)
    ∧ (d.reply = none → d.text = none →
      (normalizeData d origin).reply = "Ultron: (no response)")
    ∧ (∀ ru, d.resume_url = some ru → ru ≠ "" →
      (normalizeData d origin).resume_url = some (resolveResume ru origin))
    ∧ normalizeData ⟨none, some "hi", some "/files/r.pdf"⟩ "https://host"
        = ⟨"hi", some "https://host/files/r.pdf"⟩ := by
  refine ⟨?_, ?_, ?_, rfl⟩
  · rintro r t hr hne _ht
    simp [normalizeData, jsOr, hr, hne]
  · rintro h1 h2
    simp [normalizeData, jsOr, h1, h2]
  · rintro ru hru hne
    simp [normalizeData, hru, hne]

/-- Witness for `normalize_reply_spec`: both fields present and nonempty
picks `reply`; both missing yields the placeholder. -/
theorem normalize_reply_spec_witness :
    (normalizeData ⟨some "ok", some "alt", none⟩ "https://h").reply = "ok"
    ∧ (normalizeData ⟨none, none, none⟩ "https://h").reply = "Ultron: (no response)" :=
  ⟨(normalize_reply_spec ⟨some "ok", some "alt", none⟩ "https://h").1 "ok" "alt" rfl (by decide) rfl,
    (normalize_reply_spec ⟨none, none, none⟩ "https://h").2.1 rfl rfl⟩

/-- C10: a present-but-empty `reply` field is indistinguishable from an
absent one — normalization falls back to `text`, and to the placeholder when
`text` is also missing or empty. -/
theorem empty_reply_as_missing (d : ChatData) (origin : String) (h : d.reply = some "") :
    (normalizeData d origin).reply = (normalizeData ⟨none, d.text, d.resume_url⟩ origin).reply
    ∧ ((d.text = none ∨ d.text = some "") →
        (normalizeData d origin).reply = "Ultron: (no response)")
    ∧ (∀ t, d.text = some t → t ≠ "" → (normalizeData d origin).reply = t) := by
  refine ⟨?_, ?_, ?_⟩
  · simp [normalizeData, jsOr, h]
  · rintro (ht | ht) <;> simp [normalizeData, jsOr, h, ht]
  · rintro t ht hne
    simp [normalizeData, jsOr, h, ht, hne]

/-- Witness for `empty_reply_as_missing`: `{reply: "", text: "hi"}`
normalizes to `"hi"`. -/
theorem empty_reply_as_missing_witness :
    (⟨some "", some "hi", none⟩ : ChatData).reply = some ""
    ∧ (normalizeData ⟨some "", some "hi", none⟩ "https://h").reply = "hi" :=
  ⟨rfl, (empty_reply_as_missing ⟨some "", some "hi", none⟩ "https://h" rfl).2.2 "hi" rfl (by decide)⟩

/-- C8: for every URL string the parser accepts, the derived health URL is
the URL's origin followed by `/health` (path replaced, query and fragment
stripped) — in particular `https://host:5001/api/chat?x=1#y` yields
`https://host:5001/health`; for every string the parser rejects, it is the
fallback origin (the page origin) followed by `/health`. -/
theorem healthUrl_spec (pageOrigin s : String) :
    (∀ u, parseUrl s = some u →
      healthUrlForBackend pageOrigin s = urlOrigin u ++ "/health")
    ∧ (parseUrl s = none →
      healthUrlForBackend pageOrigin s = pageOrigin ++ "/health")
    ∧ healthUrlForBackend pageOrigin "https://host:5001/api/chat?x=1#y"
        = "https://host:5001/health" := by
  refine ⟨?_, ?_, rfl⟩
  · intro u hu
    simp [healthUrlForBackend, hu, serializeUrl, urlOrigin, String.append_empty]
  · intro hu
    simp [healthUrlForBackend, backendOriginFrom, hu]

/-- Witness for `healthUrl_spec`: a concrete parseable URL with port, query
and fragment, and a concrete unparseable one. -/
theorem healthUrl_spec_witness :
    parseUrl "http://h:1/a?q#f" = some ⟨"http", "h", "1", "/a", "?q", "#f"⟩
    ∧ healthUrlForBackend "https://p" "http://h:1/a?q#f"
        = urlOrigin ⟨"http", "h", "1", "/a", "?q", "#f"⟩ ++ "/health"
    ∧ parseUrl "nourl" = none
    ∧ healthUrlForBackend "https://p" "nourl" = "https://p" ++ "/health" :=
  ⟨by decide,
    (healthUrl_spec "https://p" "http://h:1/a?q#f").1 _ (by decide),
    by decide,
    (healthUrl_spec "https://p" "nourl").2.1 (by decide)⟩

/-- Helper: the state `sendToBackend` hands back is either the input state
(untouched) or the committed https upgrade of it. -/
theorem sendToBackend_state (sec : Bool) (pageOrigin : String) (st : ConnState)
    (primary retry : FetchOutcome) (r : ChatResult) (stout : ConnState)
    (hh : sendToBackend sec pageOrigin st primary retry = .ok (r, stout)) :
    stout = st ∨ stout = setBackend pageOrigin (httpsCandidate st.backendUrl) st := by
  unfold sendToBackend at hh
  cases hpost : postTo primary with
  | ok d =>
    rw [hpost] at hh
    cases hh
    exact Or.inl rfl
  | error e =>
    rw [hpost] at hh
    dsimp only at hh
    split at hh
    · cases hretry : postTo retry with
      | ok d =>
        rw [hretry] at hh
        cases hh
        exact Or.inr rfl
      | error e2 =>
        rw [hretry] at hh
        cases hh
        exact Or.inl rfl
    · cases hh
      exact Or.inl rfl

/-- C9: every writer of the backend URL — the auto-upgrade commit, the
in-flight https retry commit inside `sendToBackend`, the settings Save
handler and the settings Reset handler — re-derives `BACKEND_ORIGIN` from
the new URL in the same step, so origin consistency is preserved by every
operation. -/
theorem backendOrigin_invariant (pageOrigin : String) (op : ConnOp) (st : ConnState)
    (h : OriginConsistent pageOrigin st) :
    OriginConsistent pageOrigin (applyOp pageOrigin op st) := by
  cases op with
  | autoUpgrade sec probeOk =>
    unfold applyOp tryAutoUpgradeIfNeeded
    by_cases hc : (sec && jsStartsWith st.backendUrl "http://") = true
    · simp only [hc, if_true]
      cases probeOk
      · exact h
      · simp [OriginConsistent, setBackend]
    · simp only [hc, if_false]
      exact h
  | chatSend sec primary retry =>
    unfold applyOp
    dsimp only
    rcases hsend : sendToBackend sec pageOrigin st primary retry with e | ⟨r, stout⟩
    · exact h
    · rcases sendToBackend_state sec pageOrigin st primary retry r stout hsend with hst | hst
      · rw [hst]; exact h
      · rw [hst]; simp [OriginConsistent, setBackend]
  | save backendField keyField =>
    unfold applyOp
    by_cases hb : jsTrim backendField ≠ "" <;> by_cases hk : jsTrim keyField ≠ "" <;>
      simp [OriginConsistent, hb, hk]
  | reset =>
    simp [applyOp, OriginConsistent]

/-- Witness for `backendOrigin_invariant`: saving a new backend URL from a
consistent state keeps the origin consistent. -/
theorem backendOrigin_invariant_witness :
    OriginConsistent "https://p" ⟨"http://h:1/a", "http://h:1", "k", none, none⟩
    ∧ OriginConsistent "https://p"
        (applyOp "https://p" (.save "http://h:2/b" "")
          ⟨"http://h:1/a", "http://h:1", "k", none, none⟩) :=
  ⟨by decide,
    backendOrigin_invariant "https://p" (.save "http://h:2/b" "")
      ⟨"http://h:1/a", "http://h:1", "k", none, none⟩ (by decide)⟩

/-- Helper: the length of a `flatMap` over `range'` whose blocks all have
length `m`. -/
theorem length_flatMap_range'_const {α : Type} (g : ℕ → List α) (m : ℕ)
    (hg : ∀ r, (g r).length = m) :
    ∀ n s : ℕ, ((List.range' s n).flatMap g).length = n * m := by
  intro n
  induction n with
  | zero => intro s; simp
  | succ k ih =>
    intro s
    rw [List.range'_succ]
    simp only [List.flatMap_cons, List.length_append, hg, ih (s + 1)]
    ring

/-- C7 is false as stated: with 3 particles and 6 rings the source's
`floor(count/rings) || 1` guard forces one particle per ring, so 6 particles
are produced where the claim's formula `ringCount × floor(count/ringCount)`
says 0. -/
theorem initParticles_count_counterexample :
    (initParticles 0 0 1 3 6 (fun _ => 0)).length ≠ 6 * (3 / 6) := by
  decide

/-- C7 (amended): initialization produces exactly
`ringCount × max(floor(count/ringCount), 1)` particles (the `|| 1` guard
keeps one particle per ring when `count < ringCount`); the produced
particles are exactly `mkParticle` at ring `1 ≤ r ≤ ringCount` and in-ring
index `i < perRing`; `mandalaRadius` is strictly increasing in the ring
index (for a positive outer radius); and within a ring the angles
`2π·i/perRing` are evenly spaced — each consecutive gap and the wrap-around
gap equal `2π/perRing`, and the `perRing` gaps sum to `2π`. -/
theorem initParticles_spec (cx cy bigR : ℚ) (count ringCount : ℕ) (rng : ℕ → ℚ)
    (hR : 0 < bigR) :
    (initParticles cx cy bigR count ringCount rng).length
        = ringCount * max (count / ringCount) 1
    ∧ (∀ p, p ∈ initParticles cx cy bigR count ringCount rng ↔
        ∃ r i, 1 ≤ r ∧ r ≤ ringCount ∧ i < max (count / ringCount) 1 ∧
          p = mkParticle cx cy bigR ringCount (max (count / ringCount) 1) rng r i)
    ∧ (∀ r rr i ii, 1 ≤ r → rr ≤ ringCount → r < rr →
        (mkParticle cx cy bigR ringCount (max (count / ringCount) 1) rng r i).mandalaRadius
          < (mkParticle cx cy bigR ringCount (max (count / ringCount) 1) rng rr ii).mandalaRadius)
    ∧ (∀ r i, i + 1 < max (count / ringCount) 1 →
        2 * Real.pi * ((mkParticle cx cy bigR ringCount (max (count / ringCount) 1) rng r (i + 1)).mandalaAngleTurns : ℝ)
          - 2 * Real.pi * ((mkParticle cx cy bigR ringCount (max (count / ringCount) 1) rng r i).mandalaAngleTurns : ℝ)
        = 2 * Real.pi / (max (count / ringCount) 1 : ℕ))
    ∧ (∀ r, 2 * Real.pi
          - 2 * Real.pi * ((mkParticle cx cy bigR ringCount (max (count / ringCount) 1) rng r (max (count / ringCount) 1 - 1)).mandalaAngleTurns : ℝ)
        = 2 * Real.pi / (max (count / ringCount) 1 : ℕ))
    ∧ ((max (count / ringCount) 1 : ℕ) * (2 * Real.pi / (max (count / ringCount) 1 : ℕ))
        = 2 * Real.pi) := by
  have hper : 1 ≤ max (count / ringCount) 1 := le_max_right _ _
  have hperR : ((max (count / ringCount) 1 : ℕ) : ℝ) ≠ 0 := by
    exact_mod_cast Nat.one_le_iff_ne_zero.mp hper
  refine ⟨?_, ?_, ?_, ?_, ?_, ?_⟩
  · unfold initParticles
    exact length_flatMap_range'_const _ _ (fun r => by simp) ringCount 1
  · intro p
    unfold initParticles
    simp only [List.mem_flatMap, List.mem_map, List.mem_range'_1, List.mem_range]
    constructor
    · rintro ⟨r, ⟨h1, h2⟩, i, hi, hp⟩
      exact ⟨r, i, h1, by omega, hi, hp.symm⟩
    · rintro ⟨r, i, h1, h2, hi, hp⟩
      exact ⟨r, ⟨h1, by omega⟩, i, hi, hp.symm⟩
  · intro r rr i ii h1 h2 hlt
    have hnq : (0 : ℚ) < (ringCount : ℚ) := by
      exact_mod_cast (by omega : 0 < ringCount)
    have hrr : (r : ℚ) < (rr : ℚ) := by exact_mod_cast hlt
    have hb : (0 : ℚ) < bigR * (2/5) := by linarith
    simp only [mkParticle]
    rw [div_lt_div_iff_of_pos_right hnq]
    exact mul_lt_mul_of_pos_left hrr hb
  · intro r i hi
    simp only [mkParticle]
    push_cast
    field_simp
    ring
  · intro r
    simp only [mkParticle]
    rw [Nat.cast_sub hper]
    push_cast
    field_simp
    ring
  · field_simp

/-- Witness for `initParticles_spec` at the source's actual constants
(450 particles, 6 rings): 6 × 75 = 450 particles. -/
theorem initParticles_spec_witness :
    (0 : ℚ) < 1
    ∧ (initParticles 0 0 1 450 6 (fun _ => 0)).length = 6 * max (450 / 6) 1 :=
  ⟨by norm_num, (initParticles_spec 0 0 1 450 6 (fun _ => 0) (by norm_num)).1⟩

end MandalaChat
